import Mathlib

/-!
Shallow embedding of `geofront/backends/github.py` and
`geofront/backends/stash.py` (the provider backends of the geofront SSH
access broker), together with theorems settling the frozen claims about
them.

Network interaction is modelled by explicit "world" records: each field is
the (pre-determined) outcome of one remote endpoint, an
`Except Err ...` value so that transport failures and HTTP error responses
are representable.  Every operation that talks to the network additionally
reports the list of requests it issued, so that "no network call is made"
is a provable statement.
-/

namespace Geofront

/-- The concrete `Team` classes of the repository.  `issubclass` checks in
the source reduce to equality of these tags because the repository's team
class hierarchy is flat (no backend subclasses another). -/
inductive TeamKind
  | gitHubOrganization
  | stashTeam
deriving DecidableEq, Repr

/-- `issubclass(a, b)` over the repository's flat team class hierarchy. -/
def issubclass (a b : TeamKind) : Bool := decide (a = b)

/-- The `access_token` member of `Identity`: GitHub identities carry a
bearer string, Stash identities carry an `(oauth_token, oauth_token_secret)`
pair. -/
inductive AccessToken
  | bearer (token : String)
  | pair (token secret : String)
deriving DecidableEq, Repr

/-- `geofront.identity.Identity` (only declared outside `src/`; its three
members are read directly by the backends). -/
structure Identity where
  team_type : TeamKind
  identifier : String
  access_token : AccessToken
deriving DecidableEq, Repr

/-- A parsed SSH public key. -/
structure PublicKey where
  algorithm : String
  material : String
  comment : String
deriving DecidableEq, Repr

/-- Modelled from the spec: `PublicKey` equality (geofront/keystore.py and
paramiko `PKey.__eq__`, neither under `src/`) compares `(algorithm,
material)` only; the comment never participates. -/
def pkeyEq (a b : PublicKey) : Bool :=
  a.algorithm == b.algorithm && a.material == b.material

/-- The exceptions observable from the embedded code.  `outOfFuel` is a
model artifact bounding the provider-driven pagination loop; no theorem
relies on it. -/
inductive Err
  | authenticationError (message : Option String)
  | duplicatePublicKeyError (message : String)
  | keyError (key : String)
  | indexError
  | parseError (line : String)
  | httpError (code : Nat) (errorMessages : List String)
  | ioError
  | assertionError
  | typeError (message : String)
  | attributeError (message : String)
  | outOfFuel
deriving DecidableEq, Repr

/-- The content type of a token-exchange response, at the granularity the
source inspects it (`parse_options_header` mimetype). -/
inductive MimeType
  | formUrlencoded
  | json
  | other (contentType : String)
deriving DecidableEq, Repr

/-- The mimetypes `GitHubOrganization.authenticate` accepts for the
access-token response. -/
def supportedMime : MimeType → Bool
  | MimeType.other _ => false
  | _ => true

/-- Python `str.startswith`: character-sequence prefix test. -/
def startswith (s pre : String) : Bool :=
  pre.data.isPrefixOf s.data

/-- Splitting a character sequence into space-separated words
(structurally recursive so that concrete instances reduce in the kernel). -/
def wordsAux : List Char → List Char → List (List Char)
  | [], [] => []
  | [], acc => [acc.reverse]
  | c :: rest, acc =>
    if c = ' ' then
      match acc with
      | [] => wordsAux rest []
      | _ => acc.reverse :: wordsAux rest []
    else wordsAux rest (c :: acc)

/-- The space-separated words of a string. -/
def wordsOf (s : String) : List String :=
  (wordsAux s.data []).map (fun w => String.mk w)

/-- Joining words back with single spaces. -/
def joinWords : List String → String
  | [] => ""
  | [w] => w
  | w :: rest => w ++ " " ++ joinWords rest

/-- Modelled from the spec: `parse_openssh_pubkey` / `PublicKey.parse_line`
(geofront/keystore.py, not under `src/`) parse one OpenSSH public-key line
`"algorithm material [comment]"` into a `PublicKey`, failing on a line that
does not carry both an algorithm and key material. -/
def parse_openssh_pubkey (line : String) : Except Err PublicKey :=
  match wordsOf line with
  | alg :: material :: comment =>
    Except.ok ⟨alg, material, joinWords comment⟩
  | _ => Except.error (Err.parseError line)

/-- Modelled from the spec: `format_openssh_pubkey` / `str(PublicKey)`
(geofront/keystore.py, not under `src/`) render the key back to one line. -/
def format_openssh_pubkey (k : PublicKey) : String :=
  k.algorithm ++ " " ++ k.material ++ " " ++ k.comment

/-- Adding one key to a Python `set` of `PublicKey`s (membership decided by
`pkeyEq`, insertion order kept for determinism of the model). -/
def pkSetInsert (s : List PublicKey) (k : PublicKey) : List PublicKey :=
  if s.any (fun x => pkeyEq x k) then s else s ++ [k]

/-- The Python set built from a list of parsed keys. -/
def pkSetOfList (l : List PublicKey) : List PublicKey :=
  l.foldl pkSetInsert []

/-- Configuration of `GitHubOrganization` (github.py lines 103-107). -/
structure GitHubOrganization where
  client_id : String
  client_secret : String
  org_login : String
deriving DecidableEq, Repr

/-- A decoded access-token response of the GitHub token endpoint:
its mimetype and the decoded key/value payload. -/
structure TokenResponse where
  mimetype : MimeType
  payload : List (String × String)
deriving DecidableEq, Repr

/-- The decoded body of GitHub's organizations-list endpoint: either a JSON
object containing an `error` member, or the array of organizations
(represented by their `login` members, the only field the source reads). -/
inductive OrgsResult
  | errorMap
  | orgs (logins : List String)
deriving DecidableEq, Repr

/-- Outcomes of the GitHub remote endpoints used by `GitHubOrganization`:
`tokenExchange` is keyed by the authorization code POSTed to it,
`userLogin` (the `login` member of the `/user` profile) and `orgsList` by
the bearer token of the request. -/
structure GitHubWorld where
  tokenExchange : String → Except Err TokenResponse
  userLogin : String → Except Err String
  orgsList : String → Except Err OrgsResult

/-- Building `'token ' + access_token` in `github.request` (github.py line
45): concatenating the tuple token of a Stash identity raises TypeError
before any network interaction happens. -/
def githubTokenOf (i : Identity) : Except Err String :=
  match i.access_token with
  | AccessToken.bearer t => Except.ok t
  | AccessToken.pair _ _ =>
    Except.error (Err.typeError "can only concatenate str (not tuple) to str")

/-- `GitHubOrganization.authorize` (github.py lines 170-179).  Only
`IOError` from the organizations-list request is converted to `False`;
any other exception from `request` propagates. -/
def githubAuthorize (org : GitHubOrganization) (w : GitHubWorld)
    (i : Identity) : Except Err Bool :=
  if ¬ issubclass i.team_type TeamKind.gitHubOrganization then
    Except.ok false
  else
    match githubTokenOf i with
    | Except.error e => Except.error e
    | Except.ok t =>
      match w.orgsList t with
      | Except.error Err.ioError => Except.ok false
      | Except.error e => Except.error e
      | Except.ok OrgsResult.errorMap => Except.ok false
      | Except.ok (OrgsResult.orgs logins) =>
        Except.ok (logins.contains org.org_login)

/-- Decoding the token-exchange response body by content type
(github.py lines 139-153): form-encoded and JSON are accepted, anything
else raises `AuthenticationError`. -/
def tokenDataOf (acc_url : String) (resp : TokenResponse) :
    Except Err (List (String × String)) :=
  match resp.mimetype with
  | MimeType.formUrlencoded => Except.ok resp.payload
  | MimeType.json => Except.ok resp.payload
  | MimeType.other ct =>
    Except.error (Err.authenticationError
      (some (acc_url ++ " sent unsupported content type: " ++ ct)))

/-- The `ACCESS_TOKEN_URL` constant of `GitHubOrganization`. -/
def githubAccessTokenUrl : String :=
  "https://github.com/login/oauth/access_token"

/-- `GitHubOrganization.authenticate` (github.py lines 120-168).
`args` is the decoded callback query string (`req.args`; `List.lookup`
returns the first value of a key, matching werkzeug's MultiDict). -/
def githubAuthenticate (org : GitHubOrganization) (w : GitHubWorld)
    (auth_nonce : String) (args : List (String × String)) :
    Except Err Identity :=
  match List.lookup "code" args with
  | none => Except.error (Err.authenticationError none)
  | some code =>
    match List.lookup "state" args with
    | none => Except.error (Err.authenticationError none)
    | some s =>
      if s ≠ auth_nonce then Except.error (Err.authenticationError none)
      else
        match w.tokenExchange code with
        | Except.error e => Except.error e
        | Except.ok resp =>
          match tokenDataOf githubAccessTokenUrl resp with
          | Except.error e => Except.error e
          | Except.ok token_data =>
            match List.lookup "access_token" token_data with
            | none => Except.error (Err.keyError "access_token")
            | some access_token =>
              match w.userLogin access_token with
              | Except.error e => Except.error e
              | Except.ok login =>
                let identity : Identity :=
                  ⟨TeamKind.gitHubOrganization, login,
                   AccessToken.bearer access_token⟩
                match githubAuthorize org w identity with
                | Except.error e => Except.error e
                | Except.ok true => Except.ok identity
                | Except.ok false =>
                  Except.error (Err.authenticationError
                    (some ("@" ++ login ++ " user is not a member of @" ++
                           org.org_login ++ " organization")))

/-- One entry of GitHub's keys listing: `{id, key}`. -/
structure GitHubKeyEntry where
  id : Nat
  key : String
deriving DecidableEq, Repr

/-- Network requests a `GitHubKeyStore` operation can issue. -/
inductive GitHubCall
  | list
  | upload (title keyLine : String)
  | delete (id : Nat)
deriving DecidableEq, Repr

/-- Outcomes of the GitHub key-store endpoints. -/
structure GitHubKeyWorld where
  keyList : Except Err (List GitHubKeyEntry)
  uploadResponse : Except Err Unit

/-- `GitHubKeyStore.list_keys` (github.py lines 196-199): the set
comprehension parses every entry with no exception handling, so the first
parse failure propagates. -/
def githubListKeys (w : GitHubKeyWorld) (i : Identity) :
    Except Err (List PublicKey × List GitHubCall) :=
  match githubTokenOf i with
  | Except.error e => Except.error e
  | Except.ok _ =>
    match w.keyList with
    | Except.error e => Except.error e
    | Except.ok keys =>
      match keys.mapM (fun e => parse_openssh_pubkey e.key) with
      | Except.error e => Except.error e
      | Except.ok pks => Except.ok (pkSetOfList pks, [GitHubCall.list])

/-- `GitHubKeyStore.register` (github.py lines 188-194): a plain POST with
no error handling at all; any HTTP error propagates unwrapped. -/
def githubRegister (w : GitHubKeyWorld) (i : Identity) (pk : PublicKey) :
    Except Err (List GitHubCall) :=
  match githubTokenOf i with
  | Except.error e => Except.error e
  | Except.ok _ =>
    match w.uploadResponse with
    | Except.error e => Except.error e
    | Except.ok _ =>
      Except.ok [GitHubCall.upload pk.comment (format_openssh_pubkey pk)]

/-- The loop of `GitHubKeyStore.deregister` (github.py lines 204-207):
DELETE the first entry whose parsed key equals the argument, then break. -/
def githubDeregisterGo (pk : PublicKey) :
    List GitHubKeyEntry → Except Err (List GitHubCall)
  | [] => Except.ok [GitHubCall.list]
  | e :: rest =>
    match parse_openssh_pubkey e.key with
    | Except.error err => Except.error err
    | Except.ok k =>
      if pkeyEq k pk then Except.ok [GitHubCall.list, GitHubCall.delete e.id]
      else githubDeregisterGo pk rest

/-- `GitHubKeyStore.deregister` (github.py lines 201-207). -/
def githubDeregister (w : GitHubKeyWorld) (i : Identity) (pk : PublicKey) :
    Except Err (List GitHubCall) :=
  match githubTokenOf i with
  | Except.error e => Except.error e
  | Except.ok _ =>
    match w.keyList with
    | Except.error e => Except.error e
    | Except.ok keys => githubDeregisterGo pk keys

/-- Configuration of `StashTeam` (stash.py lines 57-61). -/
structure StashTeam where
  server_url : String
  consumer_key : String
  rsa_key : String
deriving DecidableEq, Repr

/-- `StashTeam.__init__`: the trailing slashes of the server url are
stripped. -/
def stashTeamInit (server_url consumer_key rsa_key : String) : StashTeam :=
  ⟨server_url.dropRightWhile (fun c => c = '/'), consumer_key, rsa_key⟩

/-- Outcomes of the Stash authentication endpoints: the signed
access-token exchange (form-decoded body) and the `whoami` endpoint
(raw utf-8 text body). -/
structure StashWorld where
  accessTokenResponse : Except Err (List (String × String))
  whoami : Except Err String

/-- `StashTeam.authenticate` (stash.py lines 94-127).  The continuation
`state` is the sequence the caller round-tripped; unpacking anything whose
length is not two raises `ValueError`, which the source converts to
`AuthenticationError`. -/
def stashAuthenticate (team : StashTeam) (w : StashWorld)
    (state : List String) (args : List (String × String)) :
    Except Err Identity :=
  match state with
  | [oauth_token, _oauth_token_secret] =>
    if List.lookup "oauth_token" args ≠ some oauth_token then
      Except.error (Err.authenticationError none)
    else
      match w.accessTokenResponse with
      | Except.error e => Except.error e
      | Except.ok access_token =>
        match List.lookup "oauth_token" access_token,
              List.lookup "oauth_token_secret" access_token with
        | some t, some s =>
          match w.whoami with
          | Except.error e => Except.error e
          | Except.ok name =>
            Except.ok ⟨TeamKind.stashTeam,
                       team.server_url ++ "/users/" ++ name,
                       AccessToken.pair t s⟩
        | none, _ => Except.error (Err.keyError "oauth_token")
        | _, none => Except.error (Err.keyError "oauth_token_secret")
  | _ => Except.error (Err.authenticationError none)

/-- `StashTeam.authorize` (stash.py lines 129-132): a purely structural
check, no world parameter because the source issues no request. -/
def stashAuthorize (team : StashTeam) (i : Identity) : Bool :=
  issubclass i.team_type TeamKind.stashTeam &&
    startswith i.identifier team.server_url

/-- One entry of the Stash keys listing: `{id, text}`. -/
structure StashKeyEntry where
  id : Nat
  text : String
deriving DecidableEq, Repr

/-- One page of Stash's paginated keys listing. -/
structure StashPage where
  values : List StashKeyEntry
  isLastPage : Bool
  nextPageStart : Nat
deriving DecidableEq, Repr

/-- Network requests a `StashKeyStore` operation can issue. -/
inductive StashCall
  | pageRequest (start : Nat)
  | keyUpload (body : String)
  | keyDelete (id : Nat)
deriving DecidableEq, Repr

/-- Outcomes of the Stash key-store endpoints: `fetchPage` is keyed by the
`start` cursor of the GET (it already accounts for the
`assert response.code == 200`), `uploadResponse` is the POST outcome. -/
structure StashKeyWorld where
  fetchPage : Nat → Except Err StashPage
  uploadResponse : Except Err Unit

/-- The compatibility guard shared by `StashKeyStore.request_list` and
`StashKeyStore.register` (stash.py lines 160-161 and 180-181):
`isinstance(self.team, identity.team_type)` — equivalent over the flat
class hierarchy to the team kind being `StashTeam` — and the identifier
being under the configured server url. -/
def stashCompatible (team : StashTeam) (i : Identity) : Bool :=
  issubclass i.team_type TeamKind.stashTeam &&
    startswith i.identifier team.server_url

/-- The `while True` pagination loop of `StashKeyStore.request_list`
(stash.py lines 163-176), fuelled to stay total: fetch the page at the
cursor, accumulate its `values`, stop when `isLastPage`, otherwise
continue from the provider-returned `nextPageStart`.  Returns the
accumulated entries together with the list of cursors requested. -/
def stashListGo (fetch : Nat → Except Err StashPage) :
    Nat → Nat → Except Err (List StashKeyEntry × List Nat)
  | 0, _ => Except.error Err.outOfFuel
  | fuel + 1, start =>
    match fetch start with
    | Except.error e => Except.error e
    | Except.ok page =>
      if page.isLastPage then Except.ok (page.values, [start])
      else
        match stashListGo fetch fuel page.nextPageStart with
        | Except.error e => Except.error e
        | Except.ok (rest, trace) =>
          Except.ok (page.values ++ rest, start :: trace)

/-- `StashKeyStore.request_list` (stash.py lines 158-176): yields nothing
at all for an incompatible identity, otherwise pages from cursor 0. -/
def stashRequestList (team : StashTeam) (fetch : Nat → Except Err StashPage)
    (fuel : Nat) (i : Identity) :
    Except Err (List StashKeyEntry × List Nat) :=
  if stashCompatible team i then stashListGo fetch fuel 0
  else Except.ok ([], [])

/-- The set-building loop of `StashKeyStore.list_keys` (stash.py lines
201-209): parse each entry, skip (log) the ones that fail, add the rest. -/
def stashParseSet (entries : List StashKeyEntry) : List PublicKey :=
  entries.foldl
    (fun acc e =>
      match parse_openssh_pubkey e.text with
      | Except.ok pk => pkSetInsert acc pk
      | Except.error _ => acc)
    []

/-- `StashKeyStore.list_keys` (stash.py lines 197-209). -/
def stashListKeys (team : StashTeam) (fetch : Nat → Except Err StashPage)
    (fuel : Nat) (i : Identity) :
    Except Err (List PublicKey × List Nat) :=
  match stashRequestList team fetch fuel i with
  | Except.error e => Except.error e
  | Except.ok (entries, trace) => Except.ok (stashParseSet entries, trace)

/-- `StashKeyStore.register` (stash.py lines 178-195): no-op for an
incompatible identity.  On the compatible path, after building the JSON
body, line 188 evaluates `self.REGISTER_URL.format(self)`: `REGISTER_URL`
is `'{0.server_url}/rest/ssh/1.0/keys'` and `self` is the `StashKeyStore`
itself, which has no `server_url` attribute — its `__init__` (lines
145-147) sets only `self.team`, and the sibling call at line 168 formats
`LIST_URL` with `self.team` instead.  The format call therefore raises
`AttributeError` before any POST is issued; `except urllib.error.HTTPError`
does not catch it, so the 409 → `DuplicatePublicKeyError(
errors[0]['message'])` handler of lines 191-194 is dead code and no
request ever reaches the world's upload endpoint. -/
def stashRegister (team : StashTeam) (_w : StashKeyWorld) (i : Identity)
    (_pk : PublicKey) : Except Err (List StashCall) :=
  if ¬ stashCompatible team i then Except.ok []
  else
    Except.error
      (Err.attributeError "StashKeyStore object has no attribute server_url")

/-- The loop of `StashKeyStore.deregister` (stash.py lines 214-222).
When an entry matches, the source evaluates
`self.DEREGISTER_URL(self, key['id'])` (line 219): `DEREGISTER_URL` is a
plain `str` constant, so calling it raises `TypeError` before any DELETE
request can be built — the `.format` call the sibling URLs use is
missing. -/
def stashDeregisterGo (pk : PublicKey) (trace : List StashCall) :
    List StashKeyEntry → Except Err (List StashCall)
  | [] => Except.ok trace
  | e :: rest =>
    match parse_openssh_pubkey e.text with
    | Except.error err => Except.error err
    | Except.ok k =>
      if pkeyEq k pk then
        Except.error (Err.typeError "str object is not callable")
      else stashDeregisterGo pk trace rest

/-- `StashKeyStore.deregister` (stash.py lines 211-222).
The identity guard is inherited from `request_list`. -/
def stashDeregister (team : StashTeam) (w : StashKeyWorld) (fuel : Nat)
    (i : Identity) (pk : PublicKey) : Except Err (List StashCall) :=
  match stashRequestList team w.fetchPage fuel i with
  | Except.error e => Except.error e
  | Except.ok (entries, pageTrace) =>
    stashDeregisterGo pk (pageTrace.map StashCall.pageRequest) entries

/-! Concrete instances used by witnesses and counterexamples. -/

/-- A GitHub organization configuration. -/
def ghOrg : GitHubOrganization := ⟨"cid", "csecret", "spoqa"⟩

/-- The token-exchange response of `ghHappyWorld`. -/
def ghHappyResp : TokenResponse :=
  ⟨MimeType.formUrlencoded, [("access_token", "T")]⟩

/-- A GitHub world where every handshake step succeeds and the user is a
member of the organization. -/
def ghHappyWorld : GitHubWorld :=
  ⟨fun _ => Except.ok ghHappyResp,
   fun _ => Except.ok "alice",
   fun _ => Except.ok (OrgsResult.orgs ["acme", "spoqa"])⟩

/-- A Stash key world whose upload POST is rejected with HTTP 409 and a
duplicate-key error payload. -/
def stConflictWorld : StashKeyWorld :=
  ⟨fun _ => Except.error Err.ioError,
   Except.error (Err.httpError 409 ["SSH key already exists"])⟩

/-- A GitHub world whose organizations-list request fails with a network
error. -/
def ghNetDownWorld : GitHubWorld :=
  ⟨fun _ => Except.ok ⟨MimeType.formUrlencoded, [("access_token", "T")]⟩,
   fun _ => Except.ok "alice",
   fun _ => Except.error Err.ioError⟩

/-- A GitHub identity as `GitHubOrganization.authenticate` constructs it. -/
def ghIdentity : Identity :=
  ⟨TeamKind.gitHubOrganization, "alice", AccessToken.bearer "T"⟩

/-- A Stash identity as `StashTeam.authenticate` constructs it. -/
def stIdentity : Identity :=
  ⟨TeamKind.stashTeam, "https://stash.example.com/users/alice",
   AccessToken.pair "tok" "sec"⟩

/-- A Stash team configuration matching `stIdentity`. -/
def stTeam : StashTeam := ⟨"https://stash.example.com", "ckey", "rsakey"⟩

/-- A Stash world where both authentication round trips succeed. -/
def stHappyWorld : StashWorld :=
  ⟨Except.ok [("oauth_token", "at"), ("oauth_token_secret", "as")],
   Except.ok "alice"⟩

/-- A GitHub key listing holding one well-formed entry on each side of a
malformed one. -/
def ghMixedKeyWorld : GitHubKeyWorld :=
  ⟨Except.ok [⟨11, "ssh-rsa aaa alice"⟩, ⟨12, "malformed"⟩,
              ⟨13, "ssh-rsa bbb bob"⟩],
   Except.ok ()⟩

/-- A GitHub key world whose upload POST is rejected with HTTP 409 and a
duplicate-key error payload. -/
def ghConflictKeyWorld : GitHubKeyWorld :=
  ⟨Except.ok [⟨11, "ssh-rsa aaa alice"⟩],
   Except.error (Err.httpError 409 ["SSH key already exists"])⟩

/-- A GitHub key listing with two stored entries equal to `dupKey` up to
comment, surrounded by non-matching entries. -/
def ghDupKeyWorld : GitHubKeyWorld :=
  ⟨Except.ok [⟨11, "ssh-rsa aaa alice"⟩, ⟨12, "ssh-rsa kmat stored"⟩,
              ⟨13, "ssh-rsa kmat another"⟩, ⟨14, "ssh-rsa bbb bob"⟩],
   Except.ok ()⟩

/-- A key whose `(algorithm, material)` matches entries 12 and 13 of
`ghDupKeyWorld` while every comment differs. -/
def dupKey : PublicKey := ⟨"ssh-rsa", "kmat", "localcomment"⟩

/-- A key stored nowhere. -/
def absentKey : PublicKey := ⟨"ssh-rsa", "zzz", "nobody"⟩

/-- The three-page Stash provider of the pagination scenario: pages of
sizes [2,2,1], `isLastPage = false,false,true`, with deliberately
non-contiguous continuation cursors (17, then 42); any other cursor
fails, so a request outside the advertised chain would be visible. -/
def stPages : Nat → Except Err StashPage
  | 0 => Except.ok ⟨[⟨1, "ssh-rsa k1 c1"⟩, ⟨2, "ssh-rsa k2 c2"⟩], false, 17⟩
  | 17 => Except.ok ⟨[⟨3, "ssh-rsa k3 c3"⟩, ⟨4, "ssh-rsa k4 c4"⟩], false, 42⟩
  | 42 => Except.ok ⟨[⟨5, "ssh-rsa k5 c5"⟩], true, 0⟩
  | _ => Except.error Err.ioError

/-- The Stash key world of the pagination scenario. -/
def stPagesWorld : StashKeyWorld := ⟨stPages, Except.ok ()⟩

/-- The five keys of `stPages`, in listing order. -/
def stFiveKeys : List PublicKey :=
  [⟨"ssh-rsa", "k1", "c1"⟩, ⟨"ssh-rsa", "k2", "c2"⟩, ⟨"ssh-rsa", "k3", "c3"⟩,
   ⟨"ssh-rsa", "k4", "c4"⟩, ⟨"ssh-rsa", "k5", "c5"⟩]

/-- A Stash provider with a single last page whose single entry matches
`dupKey` up to comment. -/
def stMatchPage : Nat → Except Err StashPage
  | 0 => Except.ok ⟨[⟨7, "ssh-rsa kmat oldcomment"⟩], true, 0⟩
  | _ => Except.error Err.ioError

/-- The Stash key world of the deregister scenario. -/
def stMatchWorld : StashKeyWorld := ⟨stMatchPage, Except.ok ()⟩

/-- A Stash provider with a single page of parseable and unparseable
entries. -/
def stMixedPage : Nat → Except Err StashPage
  | 0 => Except.ok ⟨[⟨1, "ssh-rsa aaa alice"⟩, ⟨2, "malformed"⟩,
                     ⟨3, "ssh-rsa bbb bob"⟩], true, 0⟩
  | _ => Except.error Err.ioError

/-! Helper lemmas. -/

/-- `(s ++ t).data` unfolds to the concatenation of the character lists. -/
theorem data_append (s t : String) : (s ++ t).data = s.data ++ t.data := by
  cases s
  cases t
  rfl

/-- A list is a Boolean prefix of itself followed by anything. -/
theorem isPrefixOf_append_self (l u : List Char) :
    l.isPrefixOf (l ++ u) = true := by
  induction l with
  | nil => cases u <;> simp [List.isPrefixOf]
  | cons a as ih => simp [List.isPrefixOf, ih]

/-- The Boolean prefix test agrees with the prefix relation. -/
theorem isPrefixOf_iff (l u : List Char) : l.isPrefixOf u = true ↔ l <+: u := by
  induction l generalizing u with
  | nil => simp [List.isPrefixOf]
  | cons a as ih =>
    cases u with
    | nil => simp [List.isPrefixOf]
    | cons b bs =>
      simp [List.isPrefixOf, Bool.and_eq_true, beq_iff_eq, ih,
            List.cons_prefix_cons]

/-- `startswith` holds of a string against its own leading segment. -/
theorem startswith_append_append (s t u : String) :
    startswith (s ++ t ++ u) s = true := by
  unfold startswith
  rw [data_append, data_append, List.append_assoc]
  exact isPrefixOf_append_self _ _

/-- The skip-on-parse-failure fold of `list_keys` equals inserting the
successfully parsed entries only. -/
theorem parse_fold_eq_filterMap (entries : List StashKeyEntry)
    (acc : List PublicKey) :
    entries.foldl
      (fun acc e =>
        match parse_openssh_pubkey e.text with
        | Except.ok pk => pkSetInsert acc pk
        | Except.error _ => acc)
      acc =
    (entries.filterMap
      (fun e => (parse_openssh_pubkey e.text).toOption)).foldl pkSetInsert acc := by
  induction entries generalizing acc with
  | nil => rfl
  | cons e rest ih =>
    cases hp : parse_openssh_pubkey e.text <;>
      simp [List.filterMap_cons, hp, Except.toOption, ih]

/-! Claim theorems. -/

/-- Claim C5 (code bug).  `deregister` is specified to delete, by
provider-native id, the first stored entry structurally equal to the
supplied key over `(algorithm, material)` only, at most one entry, and to
return silently when nothing matches.  `GitHubKeyStore.deregister` does
exactly that (conjuncts 2 and 3: in `ghDupKeyWorld` the entries with ids
12 and 13 both match `dupKey` up to comment; only entry 12 is deleted, and
an absent key causes no DELETE).  But `StashKeyStore.deregister`, on the
first match, evaluates `self.DEREGISTER_URL(self, key['id'])`
(stash.py line 219) — calling the `str` constant instead of formatting
it — and therefore raises `TypeError` instead of deleting (conjunct 1). -/
theorem deregister_match_behaviour :
    stashDeregister stTeam stMatchWorld 10 stIdentity dupKey =
      Except.error (Err.typeError "str object is not callable") ∧
    githubDeregister ghDupKeyWorld ghIdentity dupKey =
      Except.ok [GitHubCall.list, GitHubCall.delete 12] ∧
    githubDeregister ghDupKeyWorld ghIdentity absentKey =
      Except.ok [GitHubCall.list] :=
  ⟨rfl, rfl, rfl⟩

/-- Claim C7.  `GitHubOrganization.authorize` converts a network failure
of the organizations-list request into `False` instead of raising: for
every identity (whose token shape matches its team kind, the invariant all
repository-made identities satisfy) and every world whose
organizations-list endpoint fails with an I/O error, the result is
`Except.ok false`. -/
theorem githubAuthorize_netfail_false (org : GitHubOrganization)
    (w : GitHubWorld) (i : Identity)
    (hnet : ∀ t, w.orgsList t = Except.error Err.ioError)
    (hshape : i.team_type = TeamKind.gitHubOrganization →
      ∃ t, i.access_token = AccessToken.bearer t) :
    githubAuthorize org w i = Except.ok false := by
  unfold githubAuthorize
  by_cases hk : i.team_type = TeamKind.gitHubOrganization
  · obtain ⟨t, ht⟩ := hshape hk
    simp [issubclass, hk, githubTokenOf, ht, hnet]
  · simp [issubclass, hk]

/-- Witness for C7 at a concrete member identity and a concrete world
whose organizations-list call fails. -/
theorem githubAuthorize_netfail_false_witness :
    (∀ t, ghNetDownWorld.orgsList t = Except.error Err.ioError) ∧
    githubAuthorize ghOrg ghNetDownWorld ghIdentity = Except.ok false :=
  ⟨fun _ => rfl,
   githubAuthorize_netfail_false ghOrg ghNetDownWorld ghIdentity
     (fun _ => rfl) (fun _ => ⟨"T", rfl⟩)⟩

/-- Claim C8.  `StashTeam.authorize` is a purely structural check (its
embedding takes no world, because the source issues no request): it
returns `True` exactly when the identity's team kind is compatible with
`StashTeam` and the identifier starts with the configured server url. -/
theorem stashAuthorize_structural (team : StashTeam) (i : Identity) :
    stashAuthorize team i = true ↔
      (i.team_type = TeamKind.stashTeam ∧
       team.server_url.data <+: i.identifier.data) := by
  simp [stashAuthorize, issubclass, startswith, Bool.and_eq_true,
        decide_eq_true_eq, isPrefixOf_iff]

/-- Claim C3, counterexample.  The claim says every KeyStore
implementation turns an incompatible identity into a network-free no-op
(`list_keys` returning an empty set).  `GitHubKeyStore.list_keys` has no
compatibility guard at all: invoked with a Stash identity it raises
`TypeError` while building the `Authorization` header (concatenating the
tuple token), instead of returning the empty set. -/
theorem github_no_compat_guard_counterexample :
    githubListKeys ghMixedKeyWorld stIdentity =
      Except.error (Err.typeError "can only concatenate str (not tuple) to str") :=
  rfl

/-- Claim C3, amended.  `StashKeyStore`'s operations verify identity
compatibility and are network-free no-ops when it fails: `request_list`
yields nothing, `list_keys` returns the empty set, `register` and
`deregister` return with no call issued (the empty call traces). -/
theorem stash_incompatible_noop (team : StashTeam)
    (fetch : Nat → Except Err StashPage) (w : StashKeyWorld) (fuel : Nat)
    (i : Identity) (pk : PublicKey)
    (h : stashCompatible team i = false) :
    stashRequestList team fetch fuel i = Except.ok ([], []) ∧
    stashListKeys team fetch fuel i = Except.ok ([], []) ∧
    stashRegister team w i pk = Except.ok [] ∧
    stashDeregister team w fuel i pk = Except.ok [] := by
  refine ⟨?_, ?_, ?_, ?_⟩ <;>
    simp [stashRequestList, stashListKeys, stashRegister, stashDeregister,
          stashParseSet, stashDeregisterGo, h]

/-- Witness for the amended C3 at a GitHub identity used against a Stash
store. -/
theorem stash_incompatible_noop_witness :
    stashCompatible stTeam ghIdentity = false ∧
    stashListKeys stTeam stPages 10 ghIdentity = Except.ok ([], []) :=
  ⟨rfl,
   (stash_incompatible_noop stTeam stPages stPagesWorld 10 ghIdentity
     dupKey rfl).2.1⟩

/-- Claim C4 (code bug).  The claim — register of an already-present key
raises `DuplicatePublicKeyError` carrying the provider payload's message —
is what `StashKeyStore.register`'s own 409 handler (stash.py lines
191-194) was written to do, but that handler is unreachable: line 188
formats `REGISTER_URL` (`'{0.server_url}/...'`) with the key store itself,
which has no `server_url` attribute, so every compatible registration —
here one the provider would reject as a duplicate (`stConflictWorld`) —
raises `AttributeError` before any POST is issued (first conjunct).
`GitHubKeyStore.register` (github.py lines 188-194) has no duplicate
handling either: the provider's conflict response propagates as a generic
HTTP error, not `DuplicatePublicKeyError` (second conjunct). -/
theorem register_duplicate_behaviour :
    stashRegister stTeam stConflictWorld stIdentity dupKey =
      Except.error
        (Err.attributeError "StashKeyStore object has no attribute server_url") ∧
    githubRegister ghConflictKeyWorld ghIdentity dupKey =
      Except.error (Err.httpError 409 ["SSH key already exists"]) :=
  ⟨rfl, rfl⟩

/-- Claim C2, counterexample.  The claim says every KeyStore
implementation skips a stored entry whose key material fails to parse.
`GitHubKeyStore.list_keys` parses inside a set comprehension with no
exception handling: one malformed entry aborts the whole listing even
though well-formed entries surround it. -/
theorem github_listkeys_parse_counterexample :
    githubListKeys ghMixedKeyWorld ghIdentity =
      Except.error (Err.parseError "malformed") :=
  rfl

/-- Claim C2, amended.  `StashKeyStore.list_keys` never fails on a
malformed stored entry: whenever the remote listing itself succeeds, the
result is exactly the set of the entries that parse (the `filterMap` over
`parse_openssh_pubkey`), the unparsable ones being skipped. -/
theorem stash_listkeys_skips_malformed (team : StashTeam)
    (fetch : Nat → Except Err StashPage) (fuel : Nat) (i : Identity)
    (entries : List StashKeyEntry) (trace : List Nat)
    (h : stashRequestList team fetch fuel i = Except.ok (entries, trace)) :
    stashListKeys team fetch fuel i =
      Except.ok
        ((entries.filterMap
          (fun e => (parse_openssh_pubkey e.text).toOption)).foldl pkSetInsert [],
         trace) := by
  simp [stashListKeys, h, stashParseSet, parse_fold_eq_filterMap]

/-- Witness for the amended C2: a listing holding a malformed entry
between two well-formed ones yields exactly the two well-formed keys. -/
theorem stash_listkeys_skips_malformed_witness :
    stashListKeys stTeam stMixedPage 10 stIdentity =
      Except.ok ([⟨"ssh-rsa", "aaa", "alice"⟩, ⟨"ssh-rsa", "bbb", "bob"⟩], [0]) := by
  have h := stash_listkeys_skips_malformed stTeam stMixedPage 10 stIdentity
    [⟨1, "ssh-rsa aaa alice"⟩, ⟨2, "malformed"⟩, ⟨3, "ssh-rsa bbb bob"⟩] [0] rfl
  simpa using h

/-- Claim C6.  Pagination of `StashKeyStore`: requests start at cursor 0
(first conjunct, the definitional guard equation of `request_list`); one
loop step either stops on `isLastPage = true` — issuing no further
request — or continues exactly at the provider-returned `nextPageStart`
(second conjunct); and on the concrete provider with pages of sizes
[2,2,1], `isLastPage = false,false,true` and continuation cursors 17 and
42, `list_keys` returns all five keys with the request trace [0, 17, 42]
— exactly three requests, none after the last page (third conjunct;
`stPages` fails on every other cursor, so any further or different
request would surface as an error). -/
theorem stash_pagination (fetch : Nat → Except Err StashPage)
    (team : StashTeam) (i : Identity) (fuel start : Nat) (p : StashPage)
    (hfetch : fetch start = Except.ok p) :
    stashRequestList team fetch fuel i =
      (if stashCompatible team i then stashListGo fetch fuel 0
       else Except.ok ([], [])) ∧
    stashListGo fetch (fuel + 1) start =
      (if p.isLastPage then Except.ok (p.values, [start])
       else
         match stashListGo fetch fuel p.nextPageStart with
         | Except.error e => Except.error e
         | Except.ok (rest, trace) =>
           Except.ok (p.values ++ rest, start :: trace)) ∧
    stashListKeys stTeam stPages 10 stIdentity =
      Except.ok (stFiveKeys, [0, 17, 42]) := by
  refine ⟨rfl, ?_, rfl⟩
  simp [stashListGo, hfetch]

/-- Witness for C6 at the concrete three-page provider. -/
theorem stash_pagination_witness :
    stPages 0 =
      Except.ok ⟨[⟨1, "ssh-rsa k1 c1"⟩, ⟨2, "ssh-rsa k2 c2"⟩], false, 17⟩ ∧
    stashListKeys stTeam stPages 10 stIdentity =
      Except.ok (stFiveKeys, [0, 17, 42]) :=
  ⟨rfl, (stash_pagination stPages stTeam stIdentity 9 0 _ rfl).2.2⟩

/-- Claim C9.  Both `authenticate` implementations reject a bad callback
with `AuthenticationError`: for GitHub, an absent `code` parameter, an
absent `state` parameter, a `state` different from the nonce, or a
token-exchange response whose content type is neither form-encoded nor
JSON (the only token exchange that inspects content types); for Stash, a
malformed continuation state (not an `(oauth_token, oauth_token_secret)`
pair) or a callback `oauth_token` different from the continuation's
request token. -/
theorem authenticate_rejects_bad_callbacks (org : GitHubOrganization)
    (w : GitHubWorld) (nonce : String) (args sargs : List (String × String))
    (team : StashTeam) (sw : StashWorld) (sstate : List String)
    (hg : List.lookup "code" args = none ∨
          List.lookup "state" args ≠ some nonce ∨
          (∃ c ct payload, List.lookup "code" args = some c ∧
            List.lookup "state" args = some nonce ∧
            w.tokenExchange c = Except.ok ⟨MimeType.other ct, payload⟩))
    (hs : sstate.length ≠ 2 ∨
          (∃ t ts, sstate = [t, ts] ∧
            List.lookup "oauth_token" sargs ≠ some t)) :
    (∃ m, githubAuthenticate org w nonce args =
      Except.error (Err.authenticationError m)) ∧
    stashAuthenticate team sw sstate sargs =
      Except.error (Err.authenticationError none) := by
  constructor
  · rcases hg with hc | hstate | ⟨c, ct, payload, hc, hst, hex⟩
    · exact ⟨none, by simp [githubAuthenticate, hc]⟩
    · cases hcode : List.lookup "code" args with
      | none => exact ⟨none, by simp [githubAuthenticate, hcode]⟩
      | some c =>
        cases hst : List.lookup "state" args with
        | none => exact ⟨none, by simp [githubAuthenticate, hcode, hst]⟩
        | some s =>
          have hne : s ≠ nonce := fun h => hstate (h ▸ hst)
          exact ⟨none, by simp [githubAuthenticate, hcode, hst, hne]⟩
    · refine ⟨some (githubAccessTokenUrl ++ " sent unsupported content type: " ++ ct), ?_⟩
      simp [githubAuthenticate, hc, hst, hex, tokenDataOf]
  · rcases hs with hlen | ⟨t, ts, rfl, hmm⟩
    · cases sstate with
      | nil => simp [stashAuthenticate]
      | cons a tail =>
        cases tail with
        | nil => simp [stashAuthenticate]
        | cons b tail2 =>
          cases tail2 with
          | nil => simp at hlen
          | cons d tail3 => simp [stashAuthenticate]
    · simp [stashAuthenticate, hmm]

/-- Witness for C9: a GitHub callback whose state does not equal the
nonce, and a Stash callback whose token does not equal the request
token. -/
theorem authenticate_rejects_bad_callbacks_witness :
    (∃ m, githubAuthenticate ghOrg ghHappyWorld "N"
      [("code", "C"), ("state", "X")] =
        Except.error (Err.authenticationError m)) ∧
    stashAuthenticate stTeam stHappyWorld ["tok", "sec"]
      [("oauth_token", "bad")] =
        Except.error (Err.authenticationError none) :=
  authenticate_rejects_bad_callbacks ghOrg ghHappyWorld "N"
    [("code", "C"), ("state", "X")] [("oauth_token", "bad")]
    stTeam stHappyWorld ["tok", "sec"]
    (Or.inr (Or.inl (by decide)))
    (Or.inr ⟨"tok", "sec", rfl, by decide⟩)

/-- Claim C10.  Every identity a successful `StashTeam.authenticate`
returns has the team's own kind and an identifier built as the team's
server url followed by `/users/` and the provider-reported principal, so
`authorize` on the same team accepts it: the handshake round-trips. -/
theorem stashAuthenticate_roundtrip (team : StashTeam) (w : StashWorld)
    (state : List String) (args : List (String × String)) (i : Identity)
    (h : stashAuthenticate team w state args = Except.ok i) :
    i.team_type = TeamKind.stashTeam ∧
    (∃ name, i.identifier = team.server_url ++ "/users/" ++ name) ∧
    stashAuthorize team i = true := by
  cases state with
  | nil => simp [stashAuthenticate] at h
  | cons a tail =>
    cases tail with
    | nil => simp [stashAuthenticate] at h
    | cons b tail2 =>
      cases tail2 with
      | cons d tail3 => simp [stashAuthenticate] at h
      | nil =>
        simp only [stashAuthenticate] at h
        split at h
        · exact absurd h (by simp)
        · split at h
          · exact absurd h (by simp)
          · rename_i access_token heq
            split at h
            · rename_i t s ht hs
              split at h
              · exact absurd h (by simp)
              · rename_i name hw
                rw [Except.ok.injEq] at h
                subst h
                refine ⟨rfl, ⟨name, rfl⟩, ?_⟩
                simp [stashAuthorize, issubclass, startswith_append_append]
            · exact absurd h (by simp)
            · exact absurd h (by simp)

/-- Witness for C10 at a concrete successful Stash handshake. -/
theorem stashAuthenticate_roundtrip_witness :
    stashAuthenticate stTeam stHappyWorld ["tok", "sec"]
      [("oauth_token", "tok")] =
      Except.ok ⟨TeamKind.stashTeam, "https://stash.example.com/users/alice",
                 AccessToken.pair "at" "as"⟩ ∧
    stashAuthorize stTeam
      ⟨TeamKind.stashTeam, "https://stash.example.com/users/alice",
       AccessToken.pair "at" "as"⟩ = true :=
  ⟨rfl,
   (stashAuthenticate_roundtrip stTeam stHappyWorld ["tok", "sec"]
     [("oauth_token", "tok")]
     ⟨TeamKind.stashTeam, "https://stash.example.com/users/alice",
      AccessToken.pair "at" "as"⟩ rfl).2.2⟩

/-- Claim C1.  Over any stateless handshake whose transport succeeds (the
code exchange reaches the provider and returns a payload carrying an
access token, the profile fetch answers, and the membership check
completes with some Boolean `b` — the spec's "valid handshakes"; a
transport failure instead propagates as a generic error, the asymmetry
the spec flags in its design notes), `GitHubOrganization.authenticate`
returns an Identity exactly when the callback carries a `code`, its
`state` equals the issued nonce, the exchange response's content type is
supported and `authorize` accepts the constructed identity; when any of
these fails, it raises `AuthenticationError`. -/
theorem githubAuthenticate_characterization (org : GitHubOrganization)
    (w : GitHubWorld) (nonce : String) (args : List (String × String))
    (resp : TokenResponse) (tok login : String) (b : Bool)
    (hex : ∀ c, w.tokenExchange c = Except.ok resp)
    (htok : List.lookup "access_token" resp.payload = some tok)
    (huser : ∀ t, w.userLogin t = Except.ok login)
    (hauth : githubAuthorize org w
      ⟨TeamKind.gitHubOrganization, login, AccessToken.bearer tok⟩ =
        Except.ok b) :
    (((List.lookup "code" args).isSome = true ∧
      List.lookup "state" args = some nonce ∧
      supportedMime resp.mimetype = true ∧ b = true) ∧
     githubAuthenticate org w nonce args =
       Except.ok ⟨TeamKind.gitHubOrganization, login, AccessToken.bearer tok⟩) ∨
    (¬ ((List.lookup "code" args).isSome = true ∧
        List.lookup "state" args = some nonce ∧
        supportedMime resp.mimetype = true ∧ b = true) ∧
     ∃ m, githubAuthenticate org w nonce args =
       Except.error (Err.authenticationError m)) := by
  cases hcode : List.lookup "code" args with
  | none =>
    refine Or.inr ⟨?_, none, by simp [githubAuthenticate, hcode]⟩
    simp [hcode]
  | some c =>
    cases hstate : List.lookup "state" args with
    | none =>
      refine Or.inr ⟨?_, none, by simp [githubAuthenticate, hcode, hstate]⟩
      simp [hstate]
    | some s =>
      by_cases hs : s = nonce
      · subst hs
        cases hmime : resp.mimetype with
        | other ct =>
          refine Or.inr ⟨?_,
            some (githubAccessTokenUrl ++ " sent unsupported content type: " ++ ct), ?_⟩
          · simp [hmime, supportedMime]
          · simp [githubAuthenticate, hcode, hstate, hex, tokenDataOf, hmime]
        | formUrlencoded =>
          cases b with
          | true =>
            refine Or.inl ⟨⟨by simp [hcode], rfl, by simp [hmime, supportedMime], rfl⟩, ?_⟩
            simp [githubAuthenticate, hcode, hstate, hex, tokenDataOf, hmime,
                  htok, huser, hauth]
          | false =>
            refine Or.inr ⟨by simp, some ("@" ++ login ++ " user is not a member of @" ++
              org.org_login ++ " organization"), ?_⟩
            simp [githubAuthenticate, hcode, hstate, hex, tokenDataOf, hmime,
                  htok, huser, hauth]
        | json =>
          cases b with
          | true =>
            refine Or.inl ⟨⟨by simp [hcode], rfl, by simp [hmime, supportedMime], rfl⟩, ?_⟩
            simp [githubAuthenticate, hcode, hstate, hex, tokenDataOf, hmime,
                  htok, huser, hauth]
          | false =>
            refine Or.inr ⟨by simp, some ("@" ++ login ++ " user is not a member of @" ++
              org.org_login ++ " organization"), ?_⟩
            simp [githubAuthenticate, hcode, hstate, hex, tokenDataOf, hmime,
                  htok, huser, hauth]
      · refine Or.inr ⟨?_, none, by simp [githubAuthenticate, hcode, hstate, hs]⟩
        simp [hstate, hs]

/-- Witness for C1 at a concrete successful handshake (both the success
conditions and the returned Identity are produced by the theorem). -/
theorem githubAuthenticate_characterization_witness :
    (((List.lookup "code" [("code", "C"), ("state", "N")]).isSome = true ∧
      List.lookup "state" [("code", "C"), ("state", "N")] = some "N" ∧
      supportedMime ghHappyResp.mimetype = true ∧ true = true) ∧
     githubAuthenticate ghOrg ghHappyWorld "N" [("code", "C"), ("state", "N")] =
       Except.ok ghIdentity) ∨
    (¬ ((List.lookup "code" [("code", "C"), ("state", "N")]).isSome = true ∧
        List.lookup "state" [("code", "C"), ("state", "N")] = some "N" ∧
        supportedMime ghHappyResp.mimetype = true ∧ true = true) ∧
     ∃ m, githubAuthenticate ghOrg ghHappyWorld "N" [("code", "C"), ("state", "N")] =
       Except.error (Err.authenticationError m)) :=
  githubAuthenticate_characterization ghOrg ghHappyWorld "N"
    [("code", "C"), ("state", "N")] ghHappyResp "T" "alice" true
    (fun _ => rfl) rfl (fun _ => rfl) rfl

end Geofront
